import Mathlib

/-!
Verification of the ANEEL BDGD pipeline (src/main.py, src/config.py) against its
natural-language specification.  The pipeline stages under study are embedded
shallowly: the SQL executed by load_and_union_data, process_analytics and the
grid-map generators is modelled over exact rationals, and the relevant SQLite
evaluation rules (storage classes, column affinity, CAST, COUNT) are embedded
as executable Lean functions.
-/

namespace AneelBdgd

/-- A SQLite storage value as it sits in a column of the staging or accumulated
tables: NULL, an integer, a real (modelled exactly as a rational), or text. -/
inductive SqlValue where
| null : SqlValue
| int : Int → SqlValue
| real : ℚ → SqlValue
| text : String → SqlValue
deriving DecidableEq, Repr

/-- Column affinity as assigned by pandas to_sql when load_and_union_data stages
the layers (main.py lines 185 and 190): int64 columns get BIGINT (INTEGER
affinity), float64 columns FLOAT (REAL affinity), object columns TEXT. -/
inductive Affinity where
| integer : Affinity
| real : Affinity
| text : Affinity
deriving DecidableEq, Repr

/-- Whether an affinity is one of the numeric affinities (INTEGER or REAL). -/
def Affinity.isNumeric : Affinity → Bool
| .integer => true
| .real => true
| .text => false

/-- Drop leading whitespace characters from a character list (SQLite ignores
surrounding whitespace when interpreting text as a number). -/
def skipSpaces : List Char → List Char
| [] => []
| (c :: cs) => if c.isWhitespace then skipSpaces cs else c :: cs

/-- Split a character list into its longest leading run of decimal digits and
the remainder. -/
def digitsSplit : List Char → List Char × List Char
| [] => ([], [])
| (c :: cs) =>
    if c.isDigit then
      let p := digitsSplit cs
      (c :: p.1, p.2)
    else ([], c :: cs)

/-- Numeric value of a list of decimal digit characters, most significant
first. -/
def natOfDigits (ds : List Char) : ℚ :=
  ds.foldl (fun acc c => 10 * acc + ((c.toNat - 48 : ℕ) : ℚ)) 0

/-- Value of a fractional digit string, i.e. the digits standing after the
decimal point. -/
def fracOfDigits (ds : List Char) : ℚ :=
  natOfDigits ds / (10 ^ ds.length)

/-- Parse the longest decimal-number run at the head of a character list:
integer digits, optionally a point followed by fraction digits.  Returns the
value read, the number of digits consumed, and the rest of the input. -/
def decimalSplit (cs : List Char) : ℚ × ℕ × List Char :=
  let p1 := digitsSplit cs
  match p1.2 with
  | ('.' :: r2) =>
      let p2 := digitsSplit r2
      (natOfDigits p1.1 + fracOfDigits p2.1, p1.1.length + p2.1.length, p2.2)
  | _ => (natOfDigits p1.1, p1.1.length, p1.2)

/-- Consume one optional leading sign, returning the sign factor and the
rest. -/
def signSplit : List Char → ℚ × List Char
| ('-' :: cs) => (-1, cs)
| ('+' :: cs) => (1, cs)
| cs => (1, cs)

/-- SQLite CAST(text AS REAL): the value of the longest numeric prefix of the
text after optional whitespace and sign, and 0 when no digit is read (checked
against SQLite 3.40: CAST of the texts abc, 12abc, -3abc, 1e2 apart, gives 0,
12, -3; the exponent form of literals is not needed by any theorem below and is
not modelled). -/
def castTextToReal (s : String) : ℚ :=
  let cs := skipSpaces s.data
  let p0 := signSplit cs
  let p := decimalSplit p0.2
  if p.2.1 = 0 then 0 else p0.1 * p.1

/-- Applying NUMERIC affinity to a text value for a comparison: the conversion
happens only when the whole text (up to surrounding spaces and a sign) is a
decimal numeric literal; otherwise the value stays text.  This is the
conversion SQLite applies to the TEXT operand of a comparison whose other
operand has a numeric affinity. -/
def textNumericExact (s : String) : Option ℚ :=
  let cs := skipSpaces s.data
  let p0 := signSplit cs
  let p := decimalSplit p0.2
  if p.2.1 ≠ 0 ∧ skipSpaces p.2.2 = [] then some (p0.1 * p.1) else none

/-- Apply NUMERIC affinity to a stored value: a numeric-literal text becomes
a number (INTEGER or REAL in SQLite; the distinction is irrelevant to
comparisons, which compare the two numeric classes numerically, so the model
uses the rational value); everything else is unchanged. -/
def numericAffinity : SqlValue → SqlValue
| .text s =>
    match textNumericExact s with
    | some q => .real q
    | none => .text s
| v => v

/-- SQLite equality of two storage values after affinity conversions: NULL is
equal to nothing, numbers compare numerically, text compares by exact string
equality, and a number is never equal to a text. -/
def storageEq : SqlValue → SqlValue → Bool
| .int a, .int b => a == b
| .int a, .real b => (a : ℚ) == b
| .real a, .int b => a == (b : ℚ)
| .real a, .real b => a == b
| .text a, .text b => a == b
| _, _ => false

/-- The equality evaluated by the join predicate of main.py lines 201 and 203,
ON s."COD_ID" = c."PN_CON": per the SQLite comparison rules, when one operand
column has a numeric affinity and the other TEXT affinity, NUMERIC affinity is
applied to the TEXT operand before the storage comparison; otherwise the stored
values are compared directly.  (Checked against SQLite 3.40: an INTEGER-affinity
123 matches the texts 123, 123.0 and 0123 but not abc.) -/
def sqliteJoinEq (aL aR : Affinity) (v w : SqlValue) : Bool :=
  if aL.isNumeric && !aR.isNumeric then storageEq v (numericAffinity w)
  else if aR.isNumeric && !aL.isNumeric then storageEq (numericAffinity v) w
  else storageEq v w

/-- Modelled from the spec: the normalization the spec claims precedes the key
comparison, namely coercion of both join-key columns to a single string
representation, under which two keys match exactly when their string forms are
equal.  (No such coercion exists in load_and_union_data; this definition exists
to be compared with sqliteJoinEq.) -/
def normKeyStr : SqlValue → String
| .null => "None"
| .int n => toString n
| .real q => toString q
| .text s => s

/-- All pairs of a row of the left list with a row of the right list, in the
nested-loop order of the join. -/
def allPairs {α β : Type} (ss : List α) (cs : List β) : List (α × β) :=
  ss.flatMap (fun s => cs.map (fun c => (s, c)))

/-- The INNER JOIN of main.py lines 201/203 (SELECT s.*, c.* FROM spatial_temp
AS s INNER JOIN consumer_temp AS c ON s."COD_ID" = c."PN_CON") over staged
tables given as lists: every spatial row is paired with every consumer row
whose key compares equal under the SQLite join equality. -/
def innerJoin {α β : Type} (keyS : α → SqlValue) (keyC : β → SqlValue)
    (aS aC : Affinity) (ss : List α) (cs : List β) : List (α × β) :=
  ss.flatMap (fun s =>
    (cs.filter (fun c => sqliteJoinEq aS aC (keyS s) (keyC c))).map (fun c => (s, c)))

/-! ### Grid arithmetic (generate_grid_map, main.py lines 430-518) -/

/-- Grid index computed inside the aggregation query of generate_grid_map
(main.py lines 457-458): CAST(FLOOR((coord - min) / cell_size_deg) AS INTEGER),
modelled exactly over the rationals. -/
def gridIndex (cmin cell x : ℚ) : ℤ := ⌊(x - cmin) / cell⌋

/-- Lower edge of the cell with index i along one axis, as reconstructed at
main.py lines 482-483: cell_min = min + i * cell_size_deg. -/
def cellLow (cmin cell : ℚ) (i : ℤ) : ℚ := cmin + i * cell

/-- An axis-aligned square cell polygon, described by its corner
coordinates. -/
structure CellPoly where
  xlo : ℚ
  ylo : ℚ
  xhi : ℚ
  yhi : ℚ
deriving DecidableEq, Repr

/-- Cell polygon reconstruction of generate_grid_map (main.py lines 481-486):
a pure function of (xmin, ymin, cell size, ix, iy); the corners are
(xmin + ix*cell, ymin + iy*cell) and that point plus the cell size on each
axis. -/
def cellPoly (xmin ymin cell : ℚ) (ix iy : ℤ) : CellPoly :=
  ⟨cellLow xmin cell ix, cellLow ymin cell iy,
   cellLow xmin cell ix + cell, cellLow ymin cell iy + cell⟩

/-! ### Analytics (process_analytics, main.py lines 248-271) -/

/-- COALESCE(CAST(v AS REAL), 0) as used at main.py lines 263 and 266:
NULL becomes 0 through the COALESCE; a stored number casts to itself; a text
casts to the value of its longest numeric run (0 when there is none). -/
def coalesceCastReal : SqlValue → ℚ
| .null => 0
| .int n => (n : ℚ)
| .real q => q
| .text s => castTextToReal s

/-- One row of processed_data as process_analytics reads it: the twelve
monthly energy columns ENE_01 .. ENE_12, each one possibly absent from the
schema of the accumulated table, and the installed-capacity column CAR_INST. -/
structure AnalyticsRow where
  enePresent : Fin 12 → Bool
  ene : Fin 12 → SqlValue
  carInst : SqlValue

/-- The value read from monthly column i after process_analytics has added
every absent monthly column with REAL DEFAULT 0 (main.py lines 258-262):
an absent column reads as 0 on all pre-existing rows. -/
def monthVal (r : AnalyticsRow) (i : Fin 12) : SqlValue :=
  if r.enePresent i then r.ene i else .real 0

/-- The three derived columns written by process_analytics. -/
structure AnalyticsCols where
  eneTot : ℚ
  eneMed : ℚ
  dem : ℚ
deriving DecidableEq, Repr

/-- The sum expression built at main.py line 263: the twelve-term chain
COALESCE(CAST(ENE_01 AS REAL), 0) + ... + COALESCE(CAST(ENE_12 AS REAL), 0). -/
def sqlEneSum (r : AnalyticsRow) : ℚ :=
  coalesceCastReal (monthVal r 0) + coalesceCastReal (monthVal r 1)
    + coalesceCastReal (monthVal r 2) + coalesceCastReal (monthVal r 3)
    + coalesceCastReal (monthVal r 4) + coalesceCastReal (monthVal r 5)
    + coalesceCastReal (monthVal r 6) + coalesceCastReal (monthVal r 7)
    + coalesceCastReal (monthVal r 8) + coalesceCastReal (monthVal r 9)
    + coalesceCastReal (monthVal r 10) + coalesceCastReal (monthVal r 11)

/-- The three UPDATE statements of process_analytics (main.py lines 263-266)
on one row: ENE_TOT is the twelve-term COALESCE chain of line 263;
ENE_MED is ENE_TOT / 12.0; DEM is COALESCE(CAST(CAR_INST AS REAL), 0). -/
def process_analytics_row (r : AnalyticsRow) : AnalyticsCols :=
  ⟨sqlEneSum r, sqlEneSum r / 12, coalesceCastReal r.carInst⟩

/-- Modelled from the spec: the contribution the claim assigns to one monthly
value — a numeric value contributes itself (a text being numeric when the
whole of it is a numeric literal), a null or non-numeric value contributes
zero. -/
def claimMonthContrib : SqlValue → ℚ
| .null => 0
| .int n => (n : ℚ)
| .real q => q
| .text s =>
    match textNumericExact s with
    | some q => q
    | none => 0

/-- A concrete processed_data row whose first monthly column holds the
non-numeric text 12abc and whose other monthly columns and CAR_INST are
NULL. -/
def c4Row : AnalyticsRow :=
  ⟨fun _ => true, fun i => if i.val = 0 then SqlValue.text "12abc" else SqlValue.null,
   SqlValue.null⟩

/-- A processed_data row with every monthly column and CAR_INST NULL. -/
def allNullRow : AnalyticsRow :=
  ⟨fun _ => true, fun _ => SqlValue.null, SqlValue.null⟩

/-! ### Grid aggregation with the count reducer (generate_grid_map query,
main.py lines 455-467; the same COUNT(agg_col) pattern appears in
generate_grid_map_v1 at lines 299-303) -/

/-- A processed_data row as the aggregation query of generate_grid_map reads
it: the precomputed longitude and latitude REAL columns (possibly NULL) and
the remaining attribute columns by name. -/
structure PtRow where
  longitude : Option ℚ
  latitude : Option ℚ
  attrs : List (String × SqlValue)

/-- Value of the named attribute column of a row; NULL when the row has no
such column. -/
def colVal (name : String) (r : PtRow) : SqlValue :=
  match r.attrs.find? (fun p => p.1 == name) with
  | some p => p.2
  | Option.none => SqlValue.null

/-- The WHERE clause and GROUP BY of the aggregation query (main.py lines
463-466): a row belongs to group (ix, iy) when its longitude and latitude are
non-NULL and its arithmetic grid indices equal (ix, iy). -/
def inCell (xmin ymin cell : ℚ) (ix iy : ℤ) (r : PtRow) : Bool :=
  match r.longitude, r.latitude with
  | some x, some y => gridIndex xmin cell x == ix && gridIndex ymin cell y == iy
  | _, _ => false

/-- The rows of one (ix, iy) group of the aggregation query. -/
def rowsInCell (xmin ymin cell : ℚ) (rows : List PtRow) (ix iy : ℤ) : List PtRow :=
  rows.filter (inCell xmin ymin cell ix iy)

/-- The per-group SELECT list of generate_grid_map (main.py lines 456-460)
when AGGREGATION_FUNCTION is count: the query emits COUNT("agg_col") as the
aggregate value — per SQLite, the number of rows of the group whose value in
that column is non-NULL — and COUNT(*) as point_count, the number of rows of
the group. -/
def generate_grid_map_count_cell (xmin ymin cell : ℚ) (aggCol : String)
    (rows : List PtRow) (ix iy : ℤ) : ℕ × ℕ :=
  let g := rowsInCell xmin ymin cell rows ix iy
  (((g.map (colVal aggCol)).filter (fun v => !(v == SqlValue.null))).length, g.length)

/-- Two processed_data rows falling in the same grid cell: column C1 holds
NULL on the first row and 5 on the second, column C2 holds 1 and 2. -/
def c5Rows : List PtRow :=
  [⟨some 0, some 0, [("C1", SqlValue.null), ("C2", SqlValue.real 1)]⟩,
   ⟨some 0, some 0, [("C1", SqlValue.real 5), ("C2", SqlValue.real 2)]⟩]

/-! ### Join output schema (main.py line 201) -/

/-- The name n disambiguated with a numeric tag, as SQLite renames the later
occurrences of a duplicated result-column name in CREATE TABLE ... AS
SELECT. -/
def taggedName (n : String) (k : ℕ) : String := n ++ ":" ++ toString k

/-- First tag number from k (searching at most fuel + 1 candidates) whose
tagged name is not yet used.  The fuel used below always exceeds the number of
used names, so a free tag is always found within it. -/
def freshTag (used : List String) (n : String) : ℕ → ℕ → String
| 0, k => taggedName n k
| (fuel + 1), k =>
    if taggedName n k ∈ used then freshTag used n fuel (k + 1) else taggedName n k

/-- Column names of the relation created by main.py line 201 (CREATE TABLE
processed_data AS SELECT s.*, c.* ... INNER JOIN ...): SQLite keeps every
column of both operands in order, renaming a name that already occurred by
appending :1, :2, and so on (checked against SQLite 3.40, which yields
k, k:1, k:2 for a name shared by three operands). -/
def joinedCols (sCols cCols : List String) : List String :=
  (sCols ++ cCols).foldl
    (fun used n =>
      used ++ [if n ∈ used then freshTag used n (used.length + 1) 1 else n]) []

/-- Modelled from the spec: the attribute union with duplicate-named columns
collapsed to a single occurrence (one copy kept, not both). -/
def specUnionCols (sCols cCols : List String) : List String :=
  sCols ++ cCols.filter (fun c => !(sCols.contains c))

/-! ### Per-source transactional accumulation (load_and_union_data,
main.py lines 164-215) -/

/-- What processing one geodatabase source contributes to processed_data:
either the joined rows committed by its transaction (main.py lines 192-211),
or nothing, when any step of that source raises — the inner except arm rolls
the transaction back (line 213) and the outer except arm catches load
failures (line 215), and in both cases the loop moves on to the next
source. -/
inductive SourceOutcome (ρ : Type) where
| ok : List ρ → SourceOutcome ρ
| fail : SourceOutcome ρ

/-- The per-source loop of load_and_union_data over the accumulated
processed_data rows: a successful source appends its joined rows inside one
committed transaction, a failed source leaves the accumulated relation exactly
as it was, and processing always continues with the remaining sources. -/
def processSources {ρ : Type} (acc : List ρ) : List (SourceOutcome ρ) → List ρ
| [] => acc
| (.ok rows :: rest) => processSources (acc ++ rows) rest
| (.fail :: rest) => processSources acc rest

/-- The rows contributed by the successful sources of a run, in order. -/
def okRows {ρ : Type} : List (SourceOutcome ρ) → List ρ
| [] => []
| (.ok rows :: rest) => rows ++ okRows rest
| (.fail :: rest) => okRows rest

/-! ### Color scale (generate_grid_map, main.py lines 499-503) -/

/-- The color-scale bounds of generate_grid_map (main.py lines 499-503): the
minimum and maximum of the aggregate values strictly greater than 0; both 0
when no such value exists; and when the minimum equals the maximum, the lower
bound is replaced by max * 0.9 if the maximum is positive, else by 0. -/
def colorScaleBounds (vals : List ℚ) : ℚ × ℚ :=
  match vals.filter (fun v => decide (0 < v)) with
  | [] => (0, 0)
  | (v :: vs) =>
      let mn := vs.foldl min v
      let mx := vs.foldl max v
      if mn = mx then (if 0 < mx then (mx * (9 / 10), mx) else (0, mx)) else (mn, mx)

/-- One aggregated grid cell as handed to the map-rendering calls: its index,
aggregate value and point count. -/
structure CellRecord where
  ix : ℤ
  iy : ℤ
  value : ℚ
  pointCount : ℕ
deriving DecidableEq, Repr

/-- The map-construction stage of generate_grid_map after aggregation
(main.py lines 488-518) as far as data is concerned: the aggregated cells are
passed through unchanged into the rendered layer, and the color-scale bounds
are derived from their aggregate values.  Nothing is written back to the
cells. -/
def renderStage (cells : List CellRecord) : List CellRecord × (ℚ × ℚ) :=
  (cells, colorScaleBounds (cells.map CellRecord.value))

/-! ### The configuration module (src/config.py) -/

/-- A Python value as assigned in config.py. -/
inductive PyValue where
| str : String → PyValue
| int : Int → PyValue
| pyNone : PyValue
| strList : List String → PyValue
deriving DecidableEq, Repr

/-- The module-level assignments of src/config.py (lines 1-58), in source
order. -/
def configModule : List (String × PyValue) :=
  [("COMPANY_FILTER", .str "CERAL_ARARUAMA"),
   ("DATE_FILTER", .str "2024"),
   ("MAX_DOWNLOADS", .pyNone),
   ("SPATIAL_LAYER", .str "PONNOT"),
   ("SPATIAL_KEY", .str "COD_ID"),
   ("CONSUMER_KEY", .str "PN_CON"),
   ("CONSUMER_LAYERS", .strList ["UCAT_tab", "UCMT_tab", "UCBT_tab"]),
   ("AGGREGATION_COLUMN", .str "ENE_TOT"),
   ("AGGREGATION_FUNCTION", .str "sum"),
   ("GRID_CELL_SIZE", .int 1),
   ("GRID_CELL_UNITS", .str "meters"),
   ("TARGET_CRS_EPSG", .str "EPSG:31983"),
   ("DOWNLOAD_DIR", .str "data/downloads"),
   ("EXTRACT_DIR", .str "data/extracted"),
   ("OUTPUT_FILENAME", .str "output/aneel_bdgd.html")]

/-- Result of a Python attribute access: the value, or an AttributeError
naming the missing attribute. -/
inductive PyResult (α : Type) where
| ok : α → PyResult α
| attrError : String → PyResult α
deriving DecidableEq, Repr

/-- Attribute access config.NAME: the assigned value, or AttributeError when
config.py has no such assignment. -/
def configGetAttr (n : String) : PyResult PyValue :=
  match configModule.find? (fun p => p.1 == n) with
  | some p => .ok p.2
  | Option.none => .attrError n

/-- Outcome of a call of load_and_union_data: which sources the per-source
loop processed, and the attribute name of an uncaught AttributeError, if one
escaped the function. -/
structure LoadRun where
  processed : List String
  uncaught : Option String
deriving DecidableEq, Repr

/-- The start of load_and_union_data (main.py lines 146-164): after the
database initialization of line 148, line 152 evaluates
config.REPROJECT_TO_WGS84; an AttributeError there propagates out of the
function — the try blocks of the function all sit inside the later per-source
loop (line 164) — so no source is processed.  When the attribute exists the
loop goes on to iterate over every given path. -/
def load_and_union_data_run (gdbPaths : List String) : LoadRun :=
  match configGetAttr "REPROJECT_TO_WGS84" with
  | .ok _ => ⟨gdbPaths, Option.none⟩
  | .attrError n => ⟨[], some n⟩

/-! ### Bounds gates of the three grid-map generators (main.py lines 447-448,
288-289 and 350-351) -/

/-- Python truthiness of one fetched bound as tested by
all((xmin, ymin, xmax, ymax)): None is falsy, the float 0.0 is falsy, every
other value is truthy. -/
def truthy : Option ℚ → Bool
| Option.none => false
| some q => if q = 0 then false else true

/-- The test all((xmin, ymin, xmax, ymax)) over the fetched bounds row. -/
def boundsGateOk (b : Option ℚ × Option ℚ × Option ℚ × Option ℚ) : Bool :=
  truthy b.1 && truthy b.2.1 && truthy b.2.2.1 && truthy b.2.2.2

/-- Shared bounds gate of the three generators: given the fetched
(xmin, ymin, xmax, ymax) row, the function returns None — producing no map —
unless every bound is truthy; otherwise the bounds flow on to grid
construction. -/
def gridMapBoundsGate (b : Option ℚ × Option ℚ × Option ℚ × Option ℚ) :
    Option (Option ℚ × Option ℚ × Option ℚ × Option ℚ) :=
  if boundsGateOk b then some b else Option.none

/-- The bounds gate of generate_grid_map (main.py lines 447-448). -/
def generate_grid_map_gate := gridMapBoundsGate

/-- The bounds gate of generate_grid_map_v1 (main.py lines 288-289). -/
def generate_grid_map_v1_gate := gridMapBoundsGate

/-- The bounds gate of generate_grid_map_v2_database (main.py lines
350-351). -/
def generate_grid_map_v2_database_gate := gridMapBoundsGate

/-- Filtering a mapped list is mapping the filtered underlying list. -/
theorem filter_of_map {α β : Type} (f : α → β) (p : β → Bool) (l : List α) :
    (l.map f).filter p = (l.filter (fun a => p (f a))).map f := by
  induction l with
  | nil => rfl
  | cons a l ih => cases h : p (f a) <;> simp [List.filter, h, ih]

/-- C1 counterexample: an INTEGER-affinity key 123 does match the TEXT key
123.0 under the join of main.py line 201, although the two keys have
different string representations — so the join does not match keys exactly
when their normalized string forms are equal. -/
theorem C1_counterexample :
    sqliteJoinEq Affinity.integer Affinity.text (SqlValue.int 123) (SqlValue.text "123.0") = true
    ∧ normKeyStr (SqlValue.int 123) ≠ normKeyStr (SqlValue.text "123.0") := by
  constructor
  · simp +decide [sqliteJoinEq, Affinity.isNumeric, storageEq, numericAffinity,
      textNumericExact, skipSpaces, signSplit, decimalSplit, digitsSplit, natOfDigits,
      fracOfDigits]
    norm_num
  · simp +decide [normKeyStr]

/-- C1 amended: load_and_union_data performs no string normalization of the
join keys; the SQL join compares them under the SQLite affinity rules.  With
TEXT key columns on both sides the keys match exactly when the strings are
equal (in particular 123 does not match 123.0); with an INTEGER-affinity key
against a TEXT key the text is converted when it is a numeric literal, so the
integer 123 matches the text 123 — but it equally matches the text 123.0 —
and a text that is not a numeric literal never matches an integer key. -/
theorem C1_join_key_semantics :
    (∀ v w : String,
        sqliteJoinEq Affinity.text Affinity.text (SqlValue.text v) (SqlValue.text w) = (v == w))
    ∧ sqliteJoinEq Affinity.integer Affinity.text (SqlValue.int 123) (SqlValue.text "123") = true
    ∧ sqliteJoinEq Affinity.text Affinity.text (SqlValue.text "123") (SqlValue.text "123.0") = false
    ∧ (∀ (n : Int) (s : String), textNumericExact s = none →
        sqliteJoinEq Affinity.integer Affinity.text (SqlValue.int n) (SqlValue.text s) = false) := by
  refine ⟨fun v w => rfl, ?_, ?_, ?_⟩
  · simp +decide [sqliteJoinEq, Affinity.isNumeric, storageEq, numericAffinity,
      textNumericExact, skipSpaces, signSplit, decimalSplit, digitsSplit, natOfDigits,
      fracOfDigits]
    norm_num
  · simp +decide [sqliteJoinEq, Affinity.isNumeric, storageEq]
  · intro n s h
    simp [sqliteJoinEq, Affinity.isNumeric, numericAffinity, h, storageEq]

/-- C1 witness: the text abc is not a numeric literal, and the join at an
INTEGER-affinity key 123 rejects it. -/
theorem C1_witness :
    textNumericExact "abc" = none
    ∧ sqliteJoinEq Affinity.integer Affinity.text (SqlValue.int 123) (SqlValue.text "abc") = false := by
  have h : textNumericExact "abc" = none := by
    simp +decide [textNumericExact, skipSpaces, signSplit, decimalSplit, digitsSplit]
  exact ⟨h, C1_join_key_semantics.2.2.2 123 "abc" h⟩

/-- C2: the inner join of main.py line 201 yields exactly the matching pairs
of the staged tables — its output is the filter of all (spatial, consumer)
pairs by key equality, so its row count is the number of matching pairs — and
on the reference scenario (spatial keys A, B, C against consumer keys A, A,
B, D) it yields exactly three rows, two for A and one for B, with no row for
C or D. -/
theorem C2_join_row_count :
    (∀ (α β : Type) (keyS : α → SqlValue) (keyC : β → SqlValue) (aS aC : Affinity)
        (ss : List α) (cs : List β),
      innerJoin keyS keyC aS aC ss cs
        = (allPairs ss cs).filter (fun p => sqliteJoinEq aS aC (keyS p.1) (keyC p.2))
      ∧ (innerJoin keyS keyC aS aC ss cs).length
        = ((allPairs ss cs).filter (fun p => sqliteJoinEq aS aC (keyS p.1) (keyC p.2))).length)
    ∧ innerJoin id id Affinity.text Affinity.text
        [SqlValue.text "A", SqlValue.text "B", SqlValue.text "C"]
        [SqlValue.text "A", SqlValue.text "A", SqlValue.text "B", SqlValue.text "D"]
      = [(SqlValue.text "A", SqlValue.text "A"), (SqlValue.text "A", SqlValue.text "A"),
         (SqlValue.text "B", SqlValue.text "B")] := by
  have key : ∀ (α β : Type) (keyS : α → SqlValue) (keyC : β → SqlValue) (aS aC : Affinity)
      (ss : List α) (cs : List β),
      innerJoin keyS keyC aS aC ss cs
        = (allPairs ss cs).filter (fun p => sqliteJoinEq aS aC (keyS p.1) (keyC p.2)) := by
    intro α β keyS keyC aS aC ss cs
    induction ss with
    | nil => rfl
    | cons s ss ih =>
        simp only [innerJoin, allPairs, List.flatMap_cons, List.filter_append] at ih ⊢
        rw [ih, filter_of_map]
  refine ⟨fun α β keyS keyC aS aC ss cs => ⟨key α β keyS keyC aS aC ss cs, by rw [key]⟩, ?_⟩
  simp +decide [innerJoin, sqliteJoinEq, Affinity.isNumeric, storageEq]

/-- C3: under the arithmetic strategy with a positive cell size, a record at
coordinate x is assigned the cell index i exactly when x lies in the half-open
interval [xmin + i*cell, xmin + (i+1)*cell) — so each in-bounds point belongs
to exactly one cell, the cells tile the axis without gaps or overlaps — and
the point lies inside the polygon reconstructed from its own (ix, iy). -/
theorem C3_arith_binning (xmin ymin cellSize x y : ℚ) (hc : 0 < cellSize) :
    (∀ i : ℤ, gridIndex xmin cellSize x = i ↔
        cellLow xmin cellSize i ≤ x ∧ x < cellLow xmin cellSize i + cellSize)
    ∧ ((cellPoly xmin ymin cellSize (gridIndex xmin cellSize x) (gridIndex ymin cellSize y)).xlo ≤ x
      ∧ x < (cellPoly xmin ymin cellSize (gridIndex xmin cellSize x) (gridIndex ymin cellSize y)).xhi
      ∧ (cellPoly xmin ymin cellSize (gridIndex xmin cellSize x) (gridIndex ymin cellSize y)).ylo ≤ y
      ∧ y < (cellPoly xmin ymin cellSize (gridIndex xmin cellSize x) (gridIndex ymin cellSize y)).yhi) := by
  have key : ∀ (cmin t : ℚ) (i : ℤ), gridIndex cmin cellSize t = i ↔
      cellLow cmin cellSize i ≤ t ∧ t < cellLow cmin cellSize i + cellSize := by
    intro cmin t i
    rw [gridIndex, Int.floor_eq_iff, le_div_iff₀ hc, div_lt_iff₀ hc, cellLow]
    constructor
    · rintro ⟨h1, h2⟩
      constructor <;> nlinarith
    · rintro ⟨h1, h2⟩
      constructor <;> nlinarith
  refine ⟨key xmin x, ?_, ?_, ?_, ?_⟩
  · exact ((key xmin x _).mp rfl).1
  · exact ((key xmin x _).mp rfl).2
  · exact ((key ymin y _).mp rfl).1
  · exact ((key ymin y _).mp rfl).2

/-- C3 witness: with bounds anchored at (0, 0) and a cell size of one degree,
the point (3/2, 1/2) is assigned the cell (1, 0), and it lies inside the
reconstructed square [1, 2) x [0, 1). -/
theorem C3_witness :
    (0 : ℚ) < 1
    ∧ gridIndex 0 1 (3/2) = 1
    ∧ gridIndex 0 1 (1/2) = 0
    ∧ ((cellPoly 0 0 1 (gridIndex 0 1 (3/2)) (gridIndex 0 1 (1/2))).xlo ≤ 3/2
      ∧ (3/2 : ℚ) < (cellPoly 0 0 1 (gridIndex 0 1 (3/2)) (gridIndex 0 1 (1/2))).xhi
      ∧ (cellPoly 0 0 1 (gridIndex 0 1 (3/2)) (gridIndex 0 1 (1/2))).ylo ≤ 1/2
      ∧ (1/2 : ℚ) < (cellPoly 0 0 1 (gridIndex 0 1 (3/2)) (gridIndex 0 1 (1/2))).yhi) := by
  have h1 : gridIndex 0 1 (3/2 : ℚ) = 1 :=
    ((C3_arith_binning 0 0 1 (3/2) (1/2) (by norm_num)).1 1).mpr
      (by norm_num [cellLow])
  have h0 : gridIndex 0 1 (1/2 : ℚ) = 0 :=
    ((C3_arith_binning 0 0 1 (1/2) (1/2) (by norm_num)).1 0).mpr
      (by norm_num [cellLow])
  exact ⟨by norm_num, h1, h0,
    (C3_arith_binning 0 0 1 (3/2) (1/2) (by norm_num)).2⟩

/-- C4 counterexample: the monthly value 12abc is not a numeric literal, yet
COALESCE(CAST(... AS REAL), 0) maps it to 12, so a row holding it in ENE_01
(and NULL elsewhere) gets ENE_TOT = 12, where the claim requires every
null-or-non-numeric monthly value to contribute zero — a total of 0 for this
row. -/
theorem C4_counterexample :
    textNumericExact "12abc" = none
    ∧ coalesceCastReal (SqlValue.text "12abc") = 12
    ∧ (process_analytics_row c4Row).eneTot = 12
    ∧ (∑ i : Fin 12, claimMonthContrib (monthVal c4Row i)) = 0 := by
  have hmonth : ∀ i : Fin 12, 0 < i.val → monthVal c4Row i = SqlValue.null := by
    intro i hi
    simp [c4Row, monthVal, Nat.pos_iff_ne_zero.mp hi]
  have h0 : monthVal c4Row 0 = SqlValue.text "12abc" := by
    simp [c4Row, monthVal]
  have hcast : coalesceCastReal (SqlValue.text "12abc") = 12 := by
    simp +decide [coalesceCastReal, castTextToReal, skipSpaces, signSplit, decimalSplit,
      digitsSplit, natOfDigits, fracOfDigits]
    norm_num
  have htx : textNumericExact "12abc" = none := by
    simp +decide [textNumericExact, skipSpaces, signSplit, decimalSplit, digitsSplit]
  refine ⟨htx, hcast, ?_, ?_⟩
  · show sqlEneSum c4Row = 12
    rw [sqlEneSum, h0, hmonth 1 (by decide), hmonth 2 (by decide),
      hmonth 3 (by decide), hmonth 4 (by decide), hmonth 5 (by decide),
      hmonth 6 (by decide), hmonth 7 (by decide), hmonth 8 (by decide),
      hmonth 9 (by decide), hmonth 10 (by decide), hmonth 11 (by decide),
      hcast]
    show (12 : ℚ) + 0 + 0 + 0 + 0 + 0 + 0 + 0 + 0 + 0 + 0 + 0 = 12
    norm_num
  · show ((List.finRange 12).map (fun i => claimMonthContrib (monthVal c4Row i))).sum = 0
    rw [show List.finRange 12 = [0, 1, 2, 3, 4, 5, 6, 7, 8, 9, 10, 11] from rfl]
    simp [h0, hmonth 1 (by decide), hmonth 2 (by decide),
      hmonth 3 (by decide), hmonth 4 (by decide), hmonth 5 (by decide),
      hmonth 6 (by decide), hmonth 7 (by decide), hmonth 8 (by decide),
      hmonth 9 (by decide), hmonth 10 (by decide), hmonth 11 (by decide),
      claimMonthContrib, htx]

/-- C4 amended: ENE_TOT is the sum over the twelve monthly columns of
COALESCE(CAST(value AS REAL), 0), under which NULL and absent columns
contribute 0, a stored number contributes itself, and a text contributes the
value of its longest numeric run (0 when it has none, so fully non-numeric
text still contributes 0); ENE_MED is ENE_TOT divided by the constant 12;
DEM is CAR_INST under the same coercion; and a row whose twelve monthly
values are all NULL gets ENE_TOT = 0, ENE_MED = 0 (and DEM = 0 when CAR_INST
is NULL too, as on the concrete all-null row). -/
theorem C4_analytics :
    (∀ r : AnalyticsRow,
        (process_analytics_row r).eneTot = ∑ i : Fin 12, coalesceCastReal (monthVal r i)
        ∧ (process_analytics_row r).eneMed = (process_analytics_row r).eneTot / 12
        ∧ (process_analytics_row r).dem = coalesceCastReal r.carInst)
    ∧ (∀ (r : AnalyticsRow) (i : Fin 12), r.enePresent i = false →
        coalesceCastReal (monthVal r i) = 0)
    ∧ (∀ r : AnalyticsRow, (∀ i, monthVal r i = SqlValue.null) →
        (process_analytics_row r).eneTot = 0 ∧ (process_analytics_row r).eneMed = 0)
    ∧ process_analytics_row allNullRow = ⟨0, 0, 0⟩ := by
  have htot : ∀ r : AnalyticsRow,
      (process_analytics_row r).eneTot = ∑ i : Fin 12, coalesceCastReal (monthVal r i) := by
    intro r
    show sqlEneSum r = ((List.finRange 12).map (fun i => coalesceCastReal (monthVal r i))).sum
    rw [show List.finRange 12 = [0, 1, 2, 3, 4, 5, 6, 7, 8, 9, 10, 11] from rfl, sqlEneSum]
    simp
    ring
  have hnull : ∀ r : AnalyticsRow, (∀ i, monthVal r i = SqlValue.null) →
      (process_analytics_row r).eneTot = 0 := by
    intro r h
    show sqlEneSum r = 0
    rw [sqlEneSum, h 0, h 1, h 2, h 3, h 4, h 5, h 6, h 7, h 8, h 9, h 10, h 11]
    show (0 : ℚ) + 0 + 0 + 0 + 0 + 0 + 0 + 0 + 0 + 0 + 0 + 0 = 0
    norm_num
  have hanr : ∀ i, monthVal allNullRow i = SqlValue.null := by
    intro i
    simp [allNullRow, monthVal]
  refine ⟨fun r => ⟨htot r, rfl, rfl⟩, ?_, ?_, ?_⟩
  · intro r i h
    simp [monthVal, h, coalesceCastReal]
  · intro r h
    refine ⟨hnull r h, ?_⟩
    show sqlEneSum r / 12 = 0
    rw [show sqlEneSum r = (process_analytics_row r).eneTot from rfl, hnull r h]
    norm_num
  · have h1 : (process_analytics_row allNullRow).eneTot = 0 := hnull allNullRow hanr
    have h2 : (process_analytics_row allNullRow).eneMed = 0 := by
      show sqlEneSum allNullRow / 12 = 0
      rw [show sqlEneSum allNullRow = (process_analytics_row allNullRow).eneTot from rfl, h1]
      norm_num
    have h3 : (process_analytics_row allNullRow).dem = 0 := rfl
    calc process_analytics_row allNullRow
        = ⟨(process_analytics_row allNullRow).eneTot, (process_analytics_row allNullRow).eneMed,
            (process_analytics_row allNullRow).dem⟩ := rfl
      _ = ⟨0, 0, 0⟩ := by rw [h1, h2, h3]

/-- C4 amended, witness: the all-null row satisfies the all-null hypothesis
and the theorem gives it ENE_TOT = 0 and ENE_MED = 0. -/
theorem C4_witness :
    (∀ i, monthVal allNullRow i = SqlValue.null)
    ∧ (process_analytics_row allNullRow).eneTot = 0
    ∧ (process_analytics_row allNullRow).eneMed = 0 := by
  have h : ∀ i, monthVal allNullRow i = SqlValue.null := by
    intro i
    simp [allNullRow, monthVal]
  exact ⟨h, (C4_analytics.2.2.1 allNullRow h).1, (C4_analytics.2.2.1 allNullRow h).2⟩

/-- C5: with the count reducer, the aggregation query of generate_grid_map
(the same COUNT(agg_col) pattern appears in generate_grid_map_v1) emits
COUNT("agg_col") as the per-cell value: over one cell holding two records,
choosing column C1 (values NULL and 5) yields aggregate 1 while choosing
column C2 (values 1 and 2) yields aggregate 2 — the configured column is
read, its NULLs are excluded, and the displayed count can differ from the
number of records in the cell (2), contrary to the claim and to the comment
at config.py lines 33-35. -/
theorem C5_count_reducer_reads_column :
    generate_grid_map_count_cell 0 0 1 "C1" c5Rows 0 0 = (1, 2)
    ∧ generate_grid_map_count_cell 0 0 1 "C2" c5Rows 0 0 = (2, 2) := by
  have hidx : gridIndex 0 1 0 = 0 := by
    simp [gridIndex]
  constructor <;>
    simp +decide [generate_grid_map_count_cell, rowsInCell, inCell, c5Rows, hidx,
      colVal, List.filter]

/-- Appending one element per input in a left fold grows the list by exactly
the number of inputs. -/
theorem foldl_append_one_length {α : Type} (g : List α → α → α) (l : List α)
    (init : List α) :
    (l.foldl (fun used n => used ++ [g used n]) init).length = init.length + l.length := by
  induction l generalizing init with
  | nil => simp
  | cons a l ih =>
      rw [List.foldl_cons, ih]
      simp
      omega

/-- C6 counterexample: with COD_ID present on both sides of the join (as it is
in the BDGD layers), the output of CREATE TABLE ... AS SELECT s.*, c.* keeps
both copies — the second under the disambiguated name COD_ID:1 — while the
claim collapses the duplicate to a single occurrence, giving three columns
instead of four. -/
theorem C6_counterexample :
    joinedCols ["COD_ID", "geometry"] ["PN_CON", "COD_ID"]
      = ["COD_ID", "geometry", "PN_CON", "COD_ID:1"]
    ∧ specUnionCols ["COD_ID", "geometry"] ["PN_CON", "COD_ID"]
      = ["COD_ID", "geometry", "PN_CON"]
    ∧ (joinedCols ["COD_ID", "geometry"] ["PN_CON", "COD_ID"]).length
      ≠ (specUnionCols ["COD_ID", "geometry"] ["PN_CON", "COD_ID"]).length := by
  refine ⟨?_, ?_, ?_⟩ <;> decide

/-- C6 amended: the joined relation carries every column of both inputs — its
schema always has one column per input column, |s| + |c| in total — and a
name appearing on both sides is not collapsed: both copies are kept, the
later one under a disambiguated name such as COD_ID:1. -/
theorem C6_all_columns_kept :
    (∀ sCols cCols : List String,
        (joinedCols sCols cCols).length = sCols.length + cCols.length)
    ∧ joinedCols ["COD_ID"] ["COD_ID"] = ["COD_ID", "COD_ID:1"] := by
  constructor
  · intro sCols cCols
    rw [joinedCols, foldl_append_one_length]
    simp
  · decide

/-- C7: the per-source loop of load_and_union_data appends each successful
source's joined rows to the accumulated relation inside one committed
transaction and leaves the relation untouched on a failed source: the final
relation is the starting rows followed by exactly the rows of the successful
sources, in order — so earlier sources' committed rows survive any later
failure — and deleting a failing source from the run changes nothing. -/
theorem C7_per_source_transaction :
    (∀ (ρ : Type) (acc : List ρ) (srcs : List (SourceOutcome ρ)),
        processSources acc srcs = acc ++ okRows srcs)
    ∧ (∀ (ρ : Type) (acc : List ρ) (pre post : List (SourceOutcome ρ)),
        processSources acc (pre ++ SourceOutcome.fail :: post)
          = processSources acc (pre ++ post)) := by
  have key : ∀ (ρ : Type) (srcs : List (SourceOutcome ρ)) (acc : List ρ),
      processSources acc srcs = acc ++ okRows srcs := by
    intro ρ srcs
    induction srcs with
    | nil =>
        intro acc
        simp [processSources, okRows]
    | cons s rest ih =>
        intro acc
        cases s with
        | ok rows => simp [processSources, okRows, ih, List.append_assoc]
        | fail => simp [processSources, okRows, ih]
  refine ⟨fun ρ acc srcs => key ρ srcs acc, fun ρ acc pre post => ?_⟩
  rw [key, key]
  have : okRows (pre ++ SourceOutcome.fail :: post) = okRows (pre ++ post) := by
    induction pre with
    | nil => simp [okRows]
    | cons s pre ih => cases s <;> simp [okRows, ih]
  rw [this]

/-- Folding min over copies of the start value returns the start value. -/
theorem foldl_min_replicate (m : ℚ) (k : ℕ) :
    (List.replicate k m).foldl min m = m := by
  induction k with
  | zero => rfl
  | succ k ih => simpa [List.replicate_succ] using ih

/-- Folding max over copies of the start value returns the start value. -/
theorem foldl_max_replicate (m : ℚ) (k : ℕ) :
    (List.replicate k m).foldl max m = m := by
  induction k with
  | zero => rfl
  | succ k ih => simpa [List.replicate_succ] using ih

/-- C8: when the strictly positive aggregate values all equal one value m,
the color-scale construction of generate_grid_map replaces the collapsed
lower bound by 0.9 * m while keeping the upper bound m, and the map stage
passes every aggregated cell through unchanged — no aggregate value or
point_count is altered — and returns normally. -/
theorem C8_degenerate_color_scale (vals : List ℚ) (m : ℚ) (k : ℕ) (hm : 0 < m)
    (hf : vals.filter (fun v => decide (0 < v)) = List.replicate (k + 1) m) :
    colorScaleBounds vals = (m * (9 / 10), m)
    ∧ ∀ cells : List CellRecord, (renderStage cells).1 = cells := by
  refine ⟨?_, fun cells => rfl⟩
  have hcons : vals.filter (fun v => decide (0 < v)) = m :: List.replicate k m := by
    rw [hf, List.replicate_succ]
  unfold colorScaleBounds
  rw [hcons]
  simp [foldl_min_replicate, foldl_max_replicate, hm]

/-- C8 witness: a single non-zero aggregate value 50 collapses the range and
yields the synthesized lower bound 45 with upper bound 50. -/
theorem C8_witness :
    (0 : ℚ) < 50
    ∧ ([(50 : ℚ)].filter (fun v => decide (0 < v)) = List.replicate 1 50)
    ∧ colorScaleBounds [50] = (45, 50) := by
  have hfil : ([(50 : ℚ)].filter (fun v => decide (0 < v)) = List.replicate 1 50) := by
    norm_num [List.filter]
  refine ⟨by norm_num, hfil, ?_⟩
  have h := (C8_degenerate_color_scale [50] 50 0 (by norm_num) hfil).1
  rw [h]
  norm_num

/-- C9: config.py defines no attribute REPROJECT_TO_WGS84, so for any
non-empty list of geodatabase paths the call of load_and_union_data raises
an uncaught AttributeError at its line 152, before the per-source loop runs:
no source is processed and no joined relation is produced. -/
theorem C9_missing_reproject_attr (paths : List String) (h : paths ≠ []) :
    load_and_union_data_run paths = ⟨[], some "REPROJECT_TO_WGS84"⟩
    ∧ configGetAttr "REPROJECT_TO_WGS84" = PyResult.attrError "REPROJECT_TO_WGS84" := by
  have hc : configGetAttr "REPROJECT_TO_WGS84" = PyResult.attrError "REPROJECT_TO_WGS84" := by
    decide
  refine ⟨?_, hc⟩
  unfold load_and_union_data_run
  rw [hc]

/-- C9 witness: a one-element path list is non-empty and the run ends in the
uncaught AttributeError with nothing processed. -/
theorem C9_witness :
    (["a.gdb"] : List String) ≠ []
    ∧ load_and_union_data_run ["a.gdb"] = ⟨[], some "REPROJECT_TO_WGS84"⟩ :=
  ⟨by decide, (C9_missing_reproject_attr ["a.gdb"] (by decide)).1⟩

/-- C10: when the fetched bounds row is fully populated but any one of the
four extremes is exactly 0 — a dataset touching the equator or the prime
meridian — the all(...) truthiness gate shared by the three grid-map
generators fails, and each of generate_grid_map, generate_grid_map_v1 and
generate_grid_map_v2_database returns None: no map is produced although the
bounds query succeeded on a non-empty dataset. -/
theorem C10_zero_bound_drops_map (a b c d : ℚ)
    (h : a = 0 ∨ b = 0 ∨ c = 0 ∨ d = 0) :
    generate_grid_map_gate (some a, some b, some c, some d) = Option.none
    ∧ generate_grid_map_v1_gate (some a, some b, some c, some d) = Option.none
    ∧ generate_grid_map_v2_database_gate (some a, some b, some c, some d) = Option.none := by
  have key : gridMapBoundsGate (some a, some b, some c, some d) = Option.none := by
    rcases h with h | h | h | h <;>
      simp [gridMapBoundsGate, boundsGateOk, truthy, h]
  exact ⟨key, key, key⟩

/-- C10 witness: bounds (0, 1, 2, 3) — min longitude exactly 0 — make all
three generators return None. -/
theorem C10_witness :
    ((0 : ℚ) = 0 ∨ (1 : ℚ) = 0 ∨ (2 : ℚ) = 0 ∨ (3 : ℚ) = 0)
    ∧ generate_grid_map_gate (some 0, some 1, some 2, some 3) = Option.none
    ∧ generate_grid_map_v1_gate (some 0, some 1, some 2, some 3) = Option.none
    ∧ generate_grid_map_v2_database_gate (some 0, some 1, some 2, some 3) = Option.none :=
  ⟨Or.inl rfl,
    (C10_zero_bound_drops_map 0 1 2 3 (Or.inl rfl)).1,
    (C10_zero_bound_drops_map 0 1 2 3 (Or.inl rfl)).2.1,
    (C10_zero_bound_drops_map 0 1 2 3 (Or.inl rfl)).2.2⟩

end AneelBdgd
